import Mathlib

/- Verification of the `ur_rtde_controller` position controller
(`src/position_controller.cpp`, class `RTDEController`) against its specification.

The C++ is shallowly embedded: doubles become real numbers, hardware reads
(RTDE receive interface) become parameters, hardware commands become emitted
`Command` values, and an out-of-bounds `std::vector` subscript (undefined
behavior in C++) is modelled as `none`.  The header constants `JOINT_LIMITS`,
`ACCELERATION` and `JOINT_VELOCITY_MAX` are parameters of the embedding. -/

/-! ## Trajectory messages and the control-loop spinner -/

/-- trajectory_msgs::JointTrajectoryPoint: per-axis positions, velocities,
accelerations, effort, and the time from the start of the trajectory (seconds,
`time_from_start.toSec()`). -/
structure TrajectoryPoint where
  positions : List ℝ
  velocities : List ℝ
  accelerations : List ℝ
  effort : List ℝ
  time_from_start : ℝ

/-- Motion commands issued to the RTDE control interface
(`rtde_control_->moveJ`, `rtde_control_->stopJ`).  `moveJdefault` is the
one-argument overload `moveJ(positions)` that uses the library's default
velocity and acceleration parameters. -/
inductive Command where
  | moveJdefault (positions : List ℝ)
  | moveJ (positions : List ℝ) (velocity acceleration : ℝ)
  | stopJ (deceleration : ℝ)

/-- The controller state touched by the trajectory callback and the spinner:
the `new_trajectory_received_` flag and `desired_trajectory_.points`. -/
structure SpinState where
  new_trajectory_received : Bool
  points : List TrajectoryPoint

/-- RTDEController::jointTrajectoryCallback: stores the received trajectory and
raises the flag unconditionally — no validation of the incoming message. -/
def jointTrajectoryCallback (msg : List TrajectoryPoint) (_s : SpinState) : SpinState :=
  { new_trajectory_received := true, points := msg }

/-- One tick of the trajectory-dispatch block of RTDEController::spinner.
When the flag is set the code reads `desired_trajectory_.points[0]`, issues
`moveJ(points[0].positions)`, erases the head, and — if the vector became
empty — clears the flag, publishes the trajectory-executed notification and
issues `stopJ(2.0)`.  Reading `points[0]` of an empty vector is an
out-of-bounds subscript, modelled as `none`.  The result carries the next
state, the commands issued this tick, and the number of trajectory-executed
notifications published this tick. -/
def spinner (s : SpinState) : Option (SpinState × List Command × ℕ) :=
  if s.new_trajectory_received then
    match s.points with
    | [] => none
    | p :: rest =>
      match rest with
      | [] => some (⟨false, []⟩, [Command.moveJdefault p.positions, Command.stopJ 2.0], 1)
      | _ :: _ => some (⟨true, rest⟩, [Command.moveJdefault p.positions], 0)
  else some (s, [], 0)

/-- Iterate `spinner` for `n` ticks, concatenating the issued commands and
summing the published notifications; `none` as soon as one tick hits the
out-of-bounds access. -/
def spinnerRun : ℕ → SpinState → Option (SpinState × List Command × ℕ)
  | 0, s => some (s, [], 0)
  | n + 1, s =>
    match spinner s with
    | none => none
    | some (s1, cs, e) =>
      match spinnerRun n s1 with
      | none => none
      | some (s2, cs2, e2) => some (s2, cs ++ cs2, e + e2)

/-! ## Safety-status label tables (GetSafetyStatusCallback) -/

/-- The robot-mode label table of RTDEController::GetSafetyStatusCallback
(10 entries, subscripted with `robot_mode + 1` for codes from -1). -/
def robot_mode_msg : List String :=
  ["ROBOT_MODE_NO_CONTROLLER", "ROBOT_MODE_DISCONNECTED", "ROBOT_MODE_CONFIRM_SAFETY",
   "ROBOT_MODE_BOOTING", "ROBOT_MODE_POWER_OFF", "ROBOT_MODE_POWER_ON", "ROBOT_MODE_IDLE",
   "ROBOT_MODE_BACKDRIVE", "ROBOT_MODE_RUNNING", "ROBOT_MODE_UPDATING_FIRMWARE"]

/-- The safety-mode label table.  In the C++ source the last two string
literals are separated only by whitespace (missing comma), so they concatenate
into one element: the vector has 8 entries, its last being the fused label,
and there is no separate FAULT entry even though the comment block above it
lists nine safety modes 0..8. -/
def safety_mode_msg : List String :=
  ["NORMAL", "REDUCED", "PROTECTIVE_STOP", "RECOVERY", "SAFEGUARD_STOP",
   "SYSTEM_EMERGENCY_STOP", "ROBOT_EMERGENCY_STOP", "VIOLATIONFAULT"]

/-- The safety-status-bit label table (11 entries). -/
def safety_status_bits_msg : List String :=
  ["Is normal mode", "Is reduced mode", "Is protective stopped", "Is recovery mode",
   "Is safeguard stopped", "Is system emergency stopped", "Is robot emergency stopped",
   "Is emergency stopped", "Is violation", "Is fault", "Is stopped due to safety"]

/-- std::vector subscripting with an integer index: an in-range access yields
the element, anything else (negative or past the end) is undefined behavior,
modelled as `none`.  The C++ performs no bounds check and has no fallback. -/
def vectorIndex (l : List String) (i : ℤ) : Option String :=
  if 0 ≤ i then l.get? i.toNat else none

/-- The label lookups of RTDEController::GetSafetyStatusCallback: the robot
mode labels are subscripted with `getRobotMode() + 1`, the safety mode labels
with `getSafetyMode()`, and the safety-status-bit labels with the raw value of
`getSafetyStatusBits()` (a bit field, used directly as an index). -/
def GetSafetyStatusCallback (robotMode safetyMode : ℤ) (statusBits : ℕ) :
    Option (String × String × String) :=
  match vectorIndex robot_mode_msg (robotMode + 1), vectorIndex safety_mode_msg safetyMode,
      vectorIndex safety_status_bits_msg (statusBits : ℤ) with
  | some a, some b, some c => some (a, b, c)
  | _, _, _ => none

/-! ## Claims C7 and C8 -/

/-- Claim C7 (code bug): a zero-point trajectory is accepted by the trajectory
callback (the flag is raised and the empty point list stored), but on the next
spinner tick the code reads `points[0]` of the empty vector — an out-of-bounds
access (`none`) — instead of cleanly publishing "trajectory complete" with no
motion command. -/
theorem c7_empty_trajectory_out_of_bounds :
    jointTrajectoryCallback [] ⟨false, []⟩ = ⟨true, []⟩ ∧
    spinner ⟨true, []⟩ = none :=
  ⟨rfl, rfl⟩

/-- Ticks spent in the idle state (flag cleared, no pending points) issue no
command and publish nothing: the state is left unchanged. -/
theorem spinnerRun_idle : ∀ n : ℕ, spinnerRun n ⟨false, []⟩ = some (⟨false, []⟩, [], 0)
  | 0 => rfl
  | n + 1 => by simp [spinnerRun, spinner, spinnerRun_idle n]

/-- Running the spinner for exactly as many ticks as there are points dispatches
one `moveJ` per tick in submission order, then stops the robot and publishes a
single trajectory-executed notification, ending idle with no pending points. -/
theorem spinnerRun_active : ∀ (ps : List TrajectoryPoint) (p : TrajectoryPoint),
    spinnerRun (p :: ps).length ⟨true, p :: ps⟩ =
      some (⟨false, []⟩,
        ((p :: ps).map fun q => Command.moveJdefault q.positions) ++ [Command.stopJ 2.0], 1)
  | [], p => by simp [spinnerRun, spinner]
  | q :: ps, p => by
    have ih := spinnerRun_active ps q
    show (match spinnerRun (q :: ps).length ⟨true, q :: ps⟩ with
      | none => none
      | some (s2, cs2, e2) =>
        some (s2, [Command.moveJdefault p.positions] ++ cs2, 0 + e2)) =
      some (⟨false, []⟩,
        ((p :: q :: ps).map fun r => Command.moveJdefault r.positions) ++ [Command.stopJ 2.0], 1)
    rw [ih]
    rfl

/-- Claim C9: for every non-empty submitted trajectory the control loop
dispatches exactly one point per tick, in submission order with no reordering
or skipping; after the last point it publishes exactly one trajectory-executed
notification and issues the hard stop `stopJ(2.0)`; afterwards ticks dispatch
nothing until a new trajectory is submitted. -/
theorem c9_trajectory_fifo (ps : List TrajectoryPoint) (h : ps ≠ []) :
    spinnerRun ps.length ⟨true, ps⟩ =
      some (⟨false, []⟩,
        (ps.map fun q => Command.moveJdefault q.positions) ++ [Command.stopJ 2.0], 1) ∧
    (∀ n : ℕ, spinnerRun n ⟨false, []⟩ = some (⟨false, []⟩, [], 0)) := by
  cases ps with
  | nil => exact absurd rfl h
  | cons p ps => exact ⟨spinnerRun_active ps p, spinnerRun_idle⟩

/-- Witness for C9 at the one-point trajectory whose single point has
positions (0.1, 0, 0, 0, 0, 0). -/
theorem c9_trajectory_fifo_witness :
    ([(⟨[0.1, 0, 0, 0, 0, 0], [], [], [], 1⟩ : TrajectoryPoint)] ≠ []) ∧
    spinnerRun [(⟨[0.1, 0, 0, 0, 0, 0], [], [], [], 1⟩ : TrajectoryPoint)].length
        ⟨true, [⟨[0.1, 0, 0, 0, 0, 0], [], [], [], 1⟩]⟩ =
      some (⟨false, []⟩,
        ([(⟨[0.1, 0, 0, 0, 0, 0], [], [], [], 1⟩ : TrajectoryPoint)].map
            fun q => Command.moveJdefault q.positions) ++ [Command.stopJ 2.0], 1) :=
  ⟨List.cons_ne_nil _ _,
    (c9_trajectory_fifo [⟨[0.1, 0, 0, 0, 0, 0], [], [], [], 1⟩] (List.cons_ne_nil _ _)).1⟩

/-- The observable part of a spinner result: the positions of the pending
points and the flag (the per-tick successor state, up to fields the dispatch
never reads), together with the issued commands and notification count. -/
def observe (r : SpinState × List Command × ℕ) : (List (List ℝ) × Bool) × List Command × ℕ :=
  ((r.1.points.map TrajectoryPoint.positions, r.1.new_trajectory_received), r.2)

/-- Claim C10: the dispatched command depends only on each point's positions.
Two runs whose trajectories agree on positions — but may differ arbitrarily in
velocities, accelerations, effort and time_from_start — issue identical
command sequences and notifications, tick for tick. -/
theorem c10_command_depends_only_on_positions (n : ℕ) :
    ∀ (s t : SpinState), s.new_trajectory_received = t.new_trajectory_received →
      s.points.map TrajectoryPoint.positions = t.points.map TrajectoryPoint.positions →
      Option.map observe (spinnerRun n s) = Option.map observe (spinnerRun n t) := by
  induction n with
  | zero =>
    rintro ⟨b, ps⟩ ⟨b', qs⟩ hb hp
    simp only at hb hp
    simp [spinnerRun, observe, hb, hp]
  | succ n ih =>
    rintro ⟨b, ps⟩ ⟨b', qs⟩ hb hp
    simp only at hb hp
    subst hb
    have step : ∀ (o1 o2 : Option (SpinState × List Command × ℕ)) (cs : List Command) (e : ℕ),
        Option.map observe o1 = Option.map observe o2 →
        Option.map observe
            (match o1 with
              | none => none
              | some (s2, cs2, e2) => some (s2, cs ++ cs2, e + e2)) =
          Option.map observe
            (match o2 with
              | none => none
              | some (s2, cs2, e2) => some (s2, cs ++ cs2, e + e2)) := by
      rintro (_ | ⟨s1, cs1, e1⟩) (_ | ⟨s2, cs2, e2⟩) cs e hobs <;>
        simp [observe] at hobs ⊢
      obtain ⟨⟨h1, h2⟩, h3, h4⟩ := hobs
      exact ⟨⟨h1, h2⟩, by rw [h3], by rw [h4]⟩
    cases b with
    | false =>
      simp only [spinnerRun, spinner, Bool.false_eq_true, if_false]
      exact step _ _ [] 0 (ih ⟨false, ps⟩ ⟨false, qs⟩ rfl hp)
    | true =>
      cases ps with
      | nil =>
        have hq : qs = [] := by simpa using hp.symm
        subst hq
        rfl
      | cons p ps' =>
        cases qs with
        | nil => simp at hp
        | cons q qs' =>
          simp only [List.map_cons, List.cons.injEq] at hp
          obtain ⟨hpos, hrest⟩ := hp
          cases ps' with
          | nil =>
            have hq' : qs' = [] := by simpa using hrest.symm
            subst hq'
            simp [spinnerRun, spinner, observe, hpos]
          | cons p2 ps'' =>
            cases qs' with
            | nil => simp at hrest
            | cons q2 qs'' =>
              simp only [spinnerRun, spinner, if_true]
              rw [hpos]
              exact step _ _ [Command.moveJdefault q.positions] 0
                (ih ⟨true, p2 :: ps''⟩ ⟨true, q2 :: qs''⟩ rfl hrest)

/-- Witness for C10: one tick on two one-point trajectories sharing positions
(0.2, 0, 0, 0, 0, 0) but with different velocities and time_from_start. -/
theorem c10_command_depends_only_on_positions_witness :
    ((⟨true, [⟨[0.2, 0, 0, 0, 0, 0], [1, 1, 1, 1, 1, 1], [], [], 1⟩]⟩ : SpinState).new_trajectory_received =
      (⟨true, [⟨[0.2, 0, 0, 0, 0, 0], [], [], [], 2⟩]⟩ : SpinState).new_trajectory_received) ∧
    ((⟨true, [⟨[0.2, 0, 0, 0, 0, 0], [1, 1, 1, 1, 1, 1], [], [], 1⟩]⟩ : SpinState).points.map
        TrajectoryPoint.positions =
      (⟨true, [⟨[0.2, 0, 0, 0, 0, 0], [], [], [], 2⟩]⟩ : SpinState).points.map
        TrajectoryPoint.positions) ∧
    Option.map observe
        (spinnerRun 1 ⟨true, [⟨[0.2, 0, 0, 0, 0, 0], [1, 1, 1, 1, 1, 1], [], [], 1⟩]⟩) =
      Option.map observe (spinnerRun 1 ⟨true, [⟨[0.2, 0, 0, 0, 0, 0], [], [], [], 2⟩]⟩) :=
  ⟨rfl, rfl,
    c10_command_depends_only_on_positions 1
      ⟨true, [⟨[0.2, 0, 0, 0, 0, 0], [1, 1, 1, 1, 1, 1], [], [], 1⟩]⟩
      ⟨true, [⟨[0.2, 0, 0, 0, 0, 0], [], [], [], 2⟩]⟩ rfl rfl⟩

/-- Claim C8 (code bug): the safety-mode label table has only 8 entries because
the missing comma fuses the literals for modes 7 and 8 into one string, so a
hardware safety-mode code 8 (FAULT, listed in the controller's own comment
table) subscripts out of bounds, mode 7 yields the fused label instead of
VIOLATION, an out-of-range robot-mode code (e.g. 9) also subscripts out of
bounds, and a status-bit field with bit 10 set (value 1024) subscripts far out
of bounds — there is no "unknown" fallback anywhere. -/
theorem c8_safety_label_out_of_bounds :
    safety_mode_msg.length = 8 ∧
    vectorIndex safety_mode_msg 7 = some ("VIOLATIONFAULT") ∧
    GetSafetyStatusCallback 7 8 0 = none ∧
    GetSafetyStatusCallback 9 0 0 = none ∧
    GetSafetyStatusCallback 7 0 1024 = none :=
  ⟨rfl, rfl, rfl, rfl, rfl⟩

/-! ## Joint-space goal callback (jointGoalCallback) -/

/-- Outcome of RTDEController::jointGoalCallback: one of the early-return
validation errors (each a ROS_ERROR after which the goal is dropped), or the
issued `moveJ(positions, velocity, acceleration)` command, recorded together
with the duration actually used by the planner. -/
inductive JointGoalResult where
  | errorSize
  | errorZeroTime
  | errorJointLimits
  | errorVelocityLimit
  | move (positions : List ℝ) (velocity acceleration usedTime : ℝ)

/-- Goal outcomes in which the goal was dropped with a reported error and no
motion command was issued. -/
def goalDropped : JointGoalResult → Prop
  | JointGoalResult.move _ _ _ _ => False
  | _ => True

/-- Path length `LP = (desired_pose - actual_pose).array().abs().maxCoeff()`.
Every entry of the folded list is an absolute value, hence nonnegative, so the
extra 0 seed of `foldr` never changes the maximum the C++ computes. -/
def pathLength (desired actual : List ℝ) : ℝ :=
  (List.zipWith (fun d a => |d - a|) desired actual).foldr max 0

/-- The duration the planner actually uses: if the requested time is
infeasible under the acceleration bound — `acceleration < 4 * LP / pow(T,2)` —
the minimum time `sqrt(4 * LP / acceleration)` is substituted, with a ROS_WARN
reporting the extension; otherwise the requested T is kept. -/
noncomputable def plannedTime (LP acceleration T : ℝ) : ℝ :=
  if acceleration < 4 * LP / T ^ 2 then Real.sqrt (4 * LP / acceleration) else T

/-- The acceleration-phase duration
`ta = T/2 - 0.5 * sqrt((pow(T,2) * acceleration - 4 * LP) / acceleration + 10e-12)`
(the literal `10e-12` is 1e-11). -/
noncomputable def accelPhase (LP acceleration T : ℝ) : ℝ :=
  T / 2 - 0.5 * Real.sqrt ((T ^ 2 * acceleration - 4 * LP) / acceleration + 10e-12)

open Classical in
/-- RTDEController::jointGoalCallback, parameterized by the header constants
JOINT_LIMITS, ACCELERATION, JOINT_VELOCITY_MAX and by the cached
`actual_joint_position_`.  Checks, in source order: positions size 6, desired
time nonzero (`toSec() == 0` only), joint limits on the desired positions;
then substitutes the minimum feasible time if needed, computes
`velocity = ta * acceleration`, rejects if `velocity > JOINT_VELOCITY_MAX`,
and otherwise issues `moveJ` and clears `new_trajectory_received_`.  The
second component is the flag after the call (validation errors return early
and leave it unchanged). -/
noncomputable def jointGoalCallback (JOINT_LIMITS ACCELERATION JOINT_VELOCITY_MAX : ℝ)
    (actual_joint_position positions : List ℝ) (T : ℝ) (received : Bool) :
    JointGoalResult × Bool :=
  if positions.length ≠ 6 then (JointGoalResult.errorSize, received)
  else if T = 0 then (JointGoalResult.errorZeroTime, received)
  else if ∃ p ∈ positions, |p| > JOINT_LIMITS then (JointGoalResult.errorJointLimits, received)
  else
    let LP := pathLength positions actual_joint_position
    let T2 := plannedTime LP ACCELERATION T
    let velocity := accelPhase LP ACCELERATION T2 * ACCELERATION
    if velocity > JOINT_VELOCITY_MAX then (JointGoalResult.errorVelocityLimit, received)
    else (JointGoalResult.move positions velocity ACCELERATION T2, false)

/-! ## Claims C1 to C4 -/

/-- Claim C1 amended: every goal failing one of the three checks the code
actually performs — positions length different from 6, duration exactly zero,
or a desired position outside the joint limits — is dropped with a reported
error: no motion command is issued and the `new_trajectory_received_` flag is
left unchanged, so the system continues running.  (The claim's "zero or
negative duration" had to be weakened to "exactly-zero duration": a negative
duration passes validation, see the counterexample.) -/
theorem c1_validation_errors_drop_goal (JL A VM : ℝ) (actual positions : List ℝ)
    (T : ℝ) (b : Bool)
    (h : positions.length ≠ 6 ∨ T = 0 ∨ ∃ p ∈ positions, |p| > JL) :
    goalDropped (jointGoalCallback JL A VM actual positions T b).1 ∧
    (jointGoalCallback JL A VM actual positions T b).2 = b := by
  unfold jointGoalCallback
  by_cases h1 : positions.length ≠ 6
  · rw [if_pos h1]; exact ⟨trivial, rfl⟩
  · rw [if_neg h1]
    by_cases h2 : T = 0
    · rw [if_pos h2]; exact ⟨trivial, rfl⟩
    · rw [if_neg h2]
      by_cases h3 : ∃ p ∈ positions, |p| > JL
      · rw [if_pos h3]; exact ⟨trivial, rfl⟩
      · rcases h with h | h | h
        exacts [absurd h h1, absurd h h2, absurd h h3]

/-- Witness for C1 at the spec's malformed-goal scenario: a joint vector of
length 5 is dropped with an error and the flag is untouched. -/
theorem c1_validation_errors_drop_goal_witness :
    (([0, 0, 0, 0, 0] : List ℝ).length ≠ 6 ∨ (1 : ℝ) = 0 ∨
      ∃ p ∈ ([0, 0, 0, 0, 0] : List ℝ), |p| > (10 : ℝ)) ∧
    (goalDropped (jointGoalCallback 10 1 10 [0, 0, 0, 0, 0, 0] [0, 0, 0, 0, 0] 1 true).1 ∧
      (jointGoalCallback 10 1 10 [0, 0, 0, 0, 0, 0] [0, 0, 0, 0, 0] 1 true).2 = true) :=
  ⟨Or.inl (by simp), c1_validation_errors_drop_goal 10 1 10 [0, 0, 0, 0, 0, 0]
    [0, 0, 0, 0, 0] 1 true (Or.inl (by simp))⟩

/-- Claim C1 counterexample: a goal with negative duration T = -1 is NOT
dropped — only `toSec() == 0` is checked — so it sails through validation and
a moveJ hardware command is issued (header constants instantiated as
JOINT_LIMITS = 10, ACCELERATION = 1, JOINT_VELOCITY_MAX = 10, robot at the
zero configuration, desired positions all zero). -/
theorem c1_negative_duration_not_dropped :
    jointGoalCallback 10 1 10 [0, 0, 0, 0, 0, 0] [0, 0, 0, 0, 0, 0] (-1) true =
      (JointGoalResult.move [0, 0, 0, 0, 0, 0] (accelPhase 0 1 (-1) * 1) 1 (-1), false) := by
  norm_num [jointGoalCallback, pathLength, plannedTime]
  have h0 := Real.sqrt_nonneg (((-1 : ℝ) ^ 2 * 1 - 4 * 0) / 1 + 10e-12)
  rw [accelPhase]
  nlinarith

/-- Claim C2 amended: for goals with positive requested duration T, the
planner substitutes exactly when T is below the minimum feasible time
T_min = sqrt(4L/a_max): the used duration is T_min when T < T_min (flagged
with a ROS_WARN, not a rejection) and the unchanged T otherwise.  (The claim
had to be restricted to T > 0: for a negative requested duration the code's
test a_max < 4L/T² compares |T| against T_min, see the counterexample.) -/
theorem c2_minimum_time_substitution (L a T : ℝ) (ha : 0 < a) (hT : 0 < T) :
    plannedTime L a T =
      if T < Real.sqrt (4 * L / a) then Real.sqrt (4 * L / a) else T := by
  have hiff : a < 4 * L / T ^ 2 ↔ T < Real.sqrt (4 * L / a) := by
    rw [lt_div_iff₀ (pow_pos hT 2), Real.lt_sqrt hT.le, lt_div_iff₀ ha, mul_comm a (T ^ 2)]
  rw [plannedTime, if_congr hiff rfl rfl]

/-- Witness for C2 at the spec's infeasible-duration scenario L = 1, a_max = 1,
T = 1 < T_min = 2. -/
theorem c2_minimum_time_substitution_witness :
    (0 : ℝ) < 1 ∧ (0 : ℝ) < 1 ∧
    plannedTime 1 1 1 =
      if (1 : ℝ) < Real.sqrt (4 * 1 / 1) then Real.sqrt (4 * 1 / 1) else 1 :=
  ⟨one_pos, one_pos, c2_minimum_time_substitution 1 1 1 one_pos one_pos⟩

/-- Claim C2 counterexample: desired positions all zero, actual position
(1,0,0,0,0,0) — so L = 1 — ACCELERATION = 1 and requested duration T = -2.
T is below the minimum feasible time sqrt(4L/a) = 2, yet no substitution
happens (the code's test 1 < 4*1/(-2)² fails) and the moveJ command is issued
with the original duration -2 and a negative cruise velocity. -/
theorem c2_negative_duration_no_substitution :
    pathLength [0, 0, 0, 0, 0, 0] [1, 0, 0, 0, 0, 0] = 1 ∧
    (-2 : ℝ) < Real.sqrt (4 * 1 / 1) ∧
    plannedTime 1 1 (-2) = -2 ∧
    jointGoalCallback 10 1 10 [1, 0, 0, 0, 0, 0] [0, 0, 0, 0, 0, 0] (-2) true =
      (JointGoalResult.move [0, 0, 0, 0, 0, 0] (accelPhase 1 1 (-2) * 1) 1 (-2), false) := by
  refine ⟨by norm_num [pathLength], ?_, by norm_num [plannedTime], ?_⟩
  · have := Real.sqrt_nonneg (4 * 1 / 1 : ℝ)
    linarith
  · norm_num [jointGoalCallback, pathLength, plannedTime]
    have h0 := Real.sqrt_nonneg (((-2 : ℝ) ^ 2 * 1 - 4 * 1) / 1 + 10e-12)
    rw [accelPhase]
    nlinarith

/-- Claim C3 amended: for every feasible goal (a_max > 0, T ≥ sqrt(4L/a_max))
the accel-phase duration is computed by the stated closed form
ta = T/2 - 0.5*sqrt((T²*a_max - 4L)/a_max + 1e-11) — the callback's cruise
velocity being ta * a_max by definition — and satisfies ta ≤ T/2; the lower
bound 0 ≤ ta holds exactly when the added epsilon is dominated,
1e-11 ≤ 4L/a_max.  (For L close to zero the epsilon pushes ta slightly below
zero, so the claim's unconditional 0 ≤ ta had to be weakened to that
implication: see the counterexample.) -/
theorem c3_accel_phase_profile (L a T : ℝ) (ha : 0 < a)
    (hT : Real.sqrt (4 * L / a) ≤ T) :
    accelPhase L a T =
      T / 2 - 0.5 * Real.sqrt ((T ^ 2 * a - 4 * L) / a + 10e-12) ∧
    accelPhase L a T ≤ T / 2 ∧
    (10e-12 ≤ 4 * L / a → 0 ≤ accelPhase L a T) := by
  refine ⟨rfl, ?_, ?_⟩
  · have h0 := Real.sqrt_nonneg ((T ^ 2 * a - 4 * L) / a + 10e-12)
    rw [accelPhase]; linarith
  · intro heps
    have hT0 : 0 ≤ T := le_trans (Real.sqrt_nonneg _) hT
    have hdiv : (T ^ 2 * a - 4 * L) / a = T ^ 2 - 4 * L / a := by
      field_simp
    have hrad : (T ^ 2 * a - 4 * L) / a + 10e-12 ≤ T ^ 2 := by
      rw [hdiv]; linarith
    have hsqrt : Real.sqrt ((T ^ 2 * a - 4 * L) / a + 10e-12) ≤ T :=
      le_trans (Real.sqrt_le_sqrt hrad) (le_of_eq (Real.sqrt_sq hT0))
    rw [accelPhase]; linarith

/-- Witness for C3 at L = 1, a_max = 1, T = 3 (T_min = 2 ≤ 3). -/
theorem c3_accel_phase_profile_witness :
    ((0 : ℝ) < 1 ∧ Real.sqrt (4 * 1 / 1) ≤ (3 : ℝ)) ∧
    (accelPhase 1 1 3 =
        3 / 2 - 0.5 * Real.sqrt (((3 : ℝ) ^ 2 * 1 - 4 * 1) / 1 + 10e-12) ∧
      accelPhase 1 1 3 ≤ 3 / 2 ∧
      ((10e-12 : ℝ) ≤ 4 * 1 / 1 → 0 ≤ accelPhase 1 1 3)) := by
  have hs : Real.sqrt (4 * 1 / 1) ≤ (3 : ℝ) := by
    rw [show (4 * 1 / 1 : ℝ) = 2 ^ 2 by norm_num, Real.sqrt_sq (by norm_num : (0:ℝ) ≤ 2)]
    norm_num
  exact ⟨⟨one_pos, hs⟩, c3_accel_phase_profile 1 1 3 one_pos hs⟩

/-- Claim C3 counterexample: at L = 0, a_max = 1, T = 1 every hypothesis of the
claim holds (L ≥ 0, a_max > 0, T ≥ sqrt(4L/a_max) = 0), yet
ta = 1/2 - 0.5*sqrt(1 + 1e-11) < 0: the epsilon added under the square root
pushes ta below zero, refuting the claimed 0 ≤ ta. -/
theorem c3_epsilon_negative_ta :
    (0 : ℝ) ≤ 0 ∧ (0 : ℝ) < 1 ∧ Real.sqrt (4 * 0 / 1) ≤ 1 ∧ accelPhase 0 1 1 < 0 := by
  refine ⟨le_refl 0, one_pos, ?_, ?_⟩
  · rw [show (4 * 0 / 1 : ℝ) = 0 by norm_num, Real.sqrt_zero]; norm_num
  · rw [accelPhase]
    have h1 : (1 : ℝ) < Real.sqrt ((1 ^ 2 * 1 - 4 * 0) / 1 + 10e-12) := by
      rw [Real.lt_sqrt (by norm_num : (0:ℝ) ≤ 1)]
      norm_num
    linarith

open Classical in
/-- Claim C4: for every goal that passes the length, time and joint-limit
checks, the callback rejects with the velocity-limit error — no motion
command issued, flag left unchanged — exactly when the computed cruise
velocity v = ta * ACCELERATION exceeds JOINT_VELOCITY_MAX; otherwise the
issued moveJ carries exactly that computed velocity, so the velocity is never
silently clamped to the maximum. -/
theorem c4_velocity_limit_rejection (JL A VM : ℝ) (actual positions : List ℝ)
    (T : ℝ) (b : Bool) (hlen : positions.length = 6) (hT : T ≠ 0)
    (hlim : ¬ ∃ p ∈ positions, |p| > JL) :
    jointGoalCallback JL A VM actual positions T b =
      if accelPhase (pathLength positions actual) A
            (plannedTime (pathLength positions actual) A T) * A > VM then
        (JointGoalResult.errorVelocityLimit, b)
      else
        (JointGoalResult.move positions
          (accelPhase (pathLength positions actual) A
            (plannedTime (pathLength positions actual) A T) * A) A
          (plannedTime (pathLength positions actual) A T), false) := by
  unfold jointGoalCallback
  rw [if_neg (by simp [hlen]), if_neg hT, if_neg hlim]

/-- Witness for C4 at JOINT_LIMITS = 10, ACCELERATION = 1,
JOINT_VELOCITY_MAX = 1, actual position (4,0,0,0,0,0), desired positions all
zero, T = 4 (so L = 4, T_min = 4, ta = 2 - 0.5*sqrt(1e-11) and the computed
cruise velocity is about 2 > 1: the goal is rejected). -/
theorem c4_velocity_limit_rejection_witness :
    (([0, 0, 0, 0, 0, 0] : List ℝ).length = 6 ∧ (4 : ℝ) ≠ 0 ∧
      ¬ ∃ p ∈ ([0, 0, 0, 0, 0, 0] : List ℝ), |p| > (10 : ℝ)) ∧
    jointGoalCallback 10 1 1 [4, 0, 0, 0, 0, 0] [0, 0, 0, 0, 0, 0] 4 true =
      (if accelPhase (pathLength [0, 0, 0, 0, 0, 0] [4, 0, 0, 0, 0, 0]) 1
            (plannedTime (pathLength [0, 0, 0, 0, 0, 0] [4, 0, 0, 0, 0, 0]) 1 4) * 1 > 1 then
        (JointGoalResult.errorVelocityLimit, true)
      else
        (JointGoalResult.move [0, 0, 0, 0, 0, 0]
          (accelPhase (pathLength [0, 0, 0, 0, 0, 0] [4, 0, 0, 0, 0, 0]) 1
            (plannedTime (pathLength [0, 0, 0, 0, 0, 0] [4, 0, 0, 0, 0, 0]) 1 4) * 1) 1
          (plannedTime (pathLength [0, 0, 0, 0, 0, 0] [4, 0, 0, 0, 0, 0]) 1 4), false)) :=
  ⟨⟨by simp, by norm_num, by norm_num⟩,
    c4_velocity_limit_rejection 10 1 1 [4, 0, 0, 0, 0, 0] [0, 0, 0, 0, 0, 0] 4 true
      (by simp) (by norm_num) (by norm_num)⟩

/-- The velocity-limit rejection is observable at the C4 witness input: the
computed cruise velocity 2 - 0.5*sqrt(1e-11) exceeds JOINT_VELOCITY_MAX = 1
and the callback returns the velocity-limit error with the flag untouched. -/
theorem c4_velocity_limit_rejection_concrete :
    jointGoalCallback 10 1 1 [4, 0, 0, 0, 0, 0] [0, 0, 0, 0, 0, 0] 4 true =
      (JointGoalResult.errorVelocityLimit, true) := by
  norm_num [jointGoalCallback, pathLength, plannedTime]
  rw [accelPhase]
  have h1 : Real.sqrt (((4 : ℝ) ^ 2 * 1 - 4 * 4) / 1 + 10e-12) < 1 := by
    rw [show (((4 : ℝ) ^ 2 * 1 - 4 * 4) / 1 + 10e-12) = 10e-12 by norm_num]
    rw [show (1 : ℝ) = Real.sqrt (1 ^ 2) by rw [Real.sqrt_sq (by norm_num : (0:ℝ) ≤ 1)]]
    exact Real.sqrt_lt_sqrt (by norm_num) (by norm_num)
  nlinarith

/-! ## Pose codec (Pose2RTDE / RTDE2Pose)

Eigen operations are embedded at the version shipped with ROS (Eigen >= 3.3):
`MatrixBase::normalized()` guards the zero vector, and the
`AngleAxisd(Quaterniond)` conversion guards a zero vector part. -/

/-- A 3-vector of doubles (Eigen::Vector3d). -/
structure Vec3 where
  x : ℝ
  y : ℝ
  z : ℝ

/-- geometry_msgs orientation / Eigen::Quaterniond, constructed as (w,x,y,z). -/
structure Quaterniond where
  w : ℝ
  x : ℝ
  y : ℝ
  z : ℝ

/-- geometry_msgs::Pose: position and quaternion orientation. -/
structure Pose where
  position : Vec3
  orientation : Quaterniond

/-- The 6-component RTDE pose vector (x, y, z, rx, ry, rz): position plus
axis-angle rotation vector. -/
structure RTDEPose where
  x : ℝ
  y : ℝ
  z : ℝ
  rx : ℝ
  ry : ℝ
  rz : ℝ

/-- Componentwise negation of a quaternion (q and -q encode the same
rotation). -/
def quatNeg (q : Quaterniond) : Quaterniond := ⟨-q.w, -q.x, -q.y, -q.z⟩

/-- Euclidean norm of a 3-vector (Eigen norm()). -/
noncomputable def norm3 (v : Vec3) : ℝ := Real.sqrt (v.x ^ 2 + v.y ^ 2 + v.z ^ 2)

/-- Eigen MatrixBase::normalized(): returns v / sqrt(squaredNorm) when the
squared norm is positive and v itself otherwise (no division by zero). -/
noncomputable def normalized3 (v : Vec3) : Vec3 :=
  if 0 < v.x ^ 2 + v.y ^ 2 + v.z ^ 2 then
    ⟨v.x / norm3 v, v.y / norm3 v, v.z / norm3 v⟩
  else v

/-- The C library atan2 over the reals (only the x > 0 and x = 0 branches are
exercised here, since it is called with x = |w|). -/
noncomputable def atan2 (y x : ℝ) : ℝ :=
  if 0 < x then Real.arctan (y / x)
  else if x < 0 then
    (if 0 ≤ y then Real.arctan (y / x) + Real.pi else Real.arctan (y / x) - Real.pi)
  else if 0 < y then Real.pi / 2
  else if y < 0 then -(Real.pi / 2)
  else 0

/-- Eigen AngleAxisd(q) (operator= from a quaternion): with n = |vec(q)|,
if n = 0 the angle is 0 and the axis the fixed (1,0,0); otherwise the angle is
2*atan2(n, |w|) and the axis vec(q)/n, with n negated first when w < 0. -/
noncomputable def angleAxisOfQuat (q : Quaterniond) : ℝ × Vec3 :=
  let n := norm3 ⟨q.x, q.y, q.z⟩
  if n ≠ 0 then
    let s := if q.w < 0 then -n else n
    (2 * atan2 n |q.w|, ⟨q.x / s, q.y / s, q.z / s⟩)
  else (0, ⟨1, 0, 0⟩)

/-- Eigen Quaterniond(AngleAxisd(angle, axis)): w = cos(angle/2) and
vec = sin(angle/2) * axis. -/
noncomputable def quatOfAngleAxis (angle : ℝ) (axis : Vec3) : Quaterniond :=
  ⟨Real.cos (angle / 2), Real.sin (angle / 2) * axis.x,
   Real.sin (angle / 2) * axis.y, Real.sin (angle / 2) * axis.z⟩

/-- RTDEController::Pose2RTDE: position copied; orientation converted to
angle-axis and packed as the rotation vector axis * angle. -/
noncomputable def Pose2RTDE (pose : Pose) : RTDEPose :=
  let aa := angleAxisOfQuat pose.orientation
  ⟨pose.position.x, pose.position.y, pose.position.z,
   aa.2.x * aa.1, aa.2.y * aa.1, aa.2.z * aa.1⟩

/-- RTDEController::RTDE2Pose: angle = |(rx,ry,rz)|, axis = the rotation
vector normalized (Eigen normalized(), zero-safe), orientation the quaternion
of that angle-axis; position copied. -/
noncomputable def RTDE2Pose (r : RTDEPose) : Pose :=
  let angle := Real.sqrt (r.rx ^ 2 + r.ry ^ 2 + r.rz ^ 2)
  let axis := normalized3 ⟨r.rx, r.ry, r.rz⟩
  ⟨⟨r.x, r.y, r.z⟩, quatOfAngleAxis angle axis⟩

/-! ## Claims C5 and C6 -/

/-- Pose2RTDE sends any pose with zero quaternion vector part to the zero
rotation vector: the Eigen conversion takes its guarded branch (angle 0, fixed
axis), so no division occurs. -/
theorem Pose2RTDE_zero_vector_part (px py pz w : ℝ) :
    Pose2RTDE ⟨⟨px, py, pz⟩, ⟨w, 0, 0, 0⟩⟩ = ⟨px, py, pz, 0, 0, 0⟩ := by
  norm_num [Pose2RTDE, angleAxisOfQuat, norm3]

/-- RTDE2Pose sends the zero rotation vector to the identity quaternion: the
normalization guard returns the zero vector unchanged, cos(0) = 1 and
sin(0) * 0 = 0 — no division by zero anywhere. -/
theorem RTDE2Pose_zero_rotation (px py pz : ℝ) :
    RTDE2Pose ⟨px, py, pz, 0, 0, 0⟩ = ⟨⟨px, py, pz⟩, ⟨1, 0, 0, 0⟩⟩ := by
  norm_num [RTDE2Pose, normalized3, quatOfAngleAxis]

/-- Claim C6: the identity quaternion maps to the rotation vector (0,0,0)
under Pose2RTDE, and the rotation vector (0,0,0) maps back to the identity
quaternion under RTDE2Pose; in both directions the divisions are guarded by
the branch conditions (vector-part norm nonzero, squared norm positive), so
the zero-rotation case produces no undefined component. -/
theorem c6_zero_rotation_total (px py pz : ℝ) :
    Pose2RTDE ⟨⟨px, py, pz⟩, ⟨1, 0, 0, 0⟩⟩ = ⟨px, py, pz, 0, 0, 0⟩ ∧
    RTDE2Pose ⟨px, py, pz, 0, 0, 0⟩ = ⟨⟨px, py, pz⟩, ⟨1, 0, 0, 0⟩⟩ :=
  ⟨Pose2RTDE_zero_vector_part px py pz 1, RTDE2Pose_zero_rotation px py pz⟩

/-- RTDE2Pose on a rotation vector written as (unit axis) * (positive angle):
the recomputed angle is the encoded angle, the normalization recovers the
axis, and the quaternion is cos/sin of the half angle. -/
theorem RTDE2Pose_unit_axis (px py pz a b c A : ℝ) (hA : 0 < A)
    (hunit : a ^ 2 + b ^ 2 + c ^ 2 = 1) :
    RTDE2Pose ⟨px, py, pz, a * A, b * A, c * A⟩ =
      ⟨⟨px, py, pz⟩, ⟨Real.cos (A / 2), Real.sin (A / 2) * a, Real.sin (A / 2) * b,
        Real.sin (A / 2) * c⟩⟩ := by
  have hsq : (a * A) ^ 2 + (b * A) ^ 2 + (c * A) ^ 2 = A ^ 2 := by
    have hfac : (a * A) ^ 2 + (b * A) ^ 2 + (c * A) ^ 2 =
        (a ^ 2 + b ^ 2 + c ^ 2) * A ^ 2 := by ring
    rw [hfac, hunit, one_mul]
  have hangle : Real.sqrt ((a * A) ^ 2 + (b * A) ^ 2 + (c * A) ^ 2) = A := by
    rw [hsq, Real.sqrt_sq hA.le]
  have haxis : normalized3 ⟨a * A, b * A, c * A⟩ = ⟨a, b, c⟩ := by
    rw [normalized3]
    simp only
    rw [if_pos (show (0:ℝ) < (a * A) ^ 2 + (b * A) ^ 2 + (c * A) ^ 2 from by
      rw [hsq]; exact pow_pos hA 2)]
    rw [norm3]
    simp only
    rw [hangle]
    congr 1 <;> exact mul_div_cancel_right₀ _ hA.ne'
  rw [RTDE2Pose]
  simp only
  rw [hangle, haxis, quatOfAngleAxis]

/-- For a point (W, N) of the unit circle with W ≥ 0 and N > 0, the cosine and
sine of atan2(N, W) recover W and N. -/
theorem cos_sin_atan2_of_unit (W N : ℝ) (hN : 0 < N) (hW : 0 ≤ W)
    (hunit : W ^ 2 + N ^ 2 = 1) :
    Real.cos (atan2 N W) = W ∧ Real.sin (atan2 N W) = N := by
  rcases eq_or_lt_of_le hW with hW0 | hWpos
  · have hN1 : N = 1 := by
      have h2 : (N - 1) * (N + 1) = 0 := by linear_combination hunit + W * hW0
      rcases mul_eq_zero.mp h2 with h3 | h3
      · linarith
      · linarith
    have hval : atan2 N W = Real.pi / 2 := by
      rw [atan2, ← hW0, if_neg (lt_irrefl 0), if_neg (lt_irrefl 0), if_pos hN]
    rw [hval, Real.cos_pi_div_two, Real.sin_pi_div_two, ← hW0, hN1]
    exact ⟨rfl, rfl⟩
  · have hval : atan2 N W = Real.arctan (N / W) := by
      rw [atan2, if_pos hWpos]
    have hsqrt : Real.sqrt (1 + (N / W) ^ 2) = 1 / W := by
      have h1 : 1 + (N / W) ^ 2 = 1 / W ^ 2 := by
        field_simp
        linear_combination hunit
      rw [h1, one_div, Real.sqrt_inv, Real.sqrt_sq hW, one_div]
    constructor
    · rw [hval, Real.cos_arctan, hsqrt]
      rw [one_div_one_div]
    · rw [hval, Real.sin_arctan, hsqrt]
      field_simp

/-- Claim C5: for every pose whose quaternion is normalized, the round trip
RTDE2Pose (Pose2RTDE p) — i.e. fromNativePose(toNativePose(p)) — reproduces
the position exactly and the orientation up to quaternion sign (q and -q
encode the same rotation); in the real-arithmetic embedding the recovery is
exact, which subsumes "within floating-point tolerance". -/
theorem c5_pose_roundtrip (p : Pose)
    (h : p.orientation.w ^ 2 + p.orientation.x ^ 2 + p.orientation.y ^ 2 +
      p.orientation.z ^ 2 = 1) :
    (RTDE2Pose (Pose2RTDE p)).position = p.position ∧
    ((RTDE2Pose (Pose2RTDE p)).orientation = p.orientation ∨
      (RTDE2Pose (Pose2RTDE p)).orientation = quatNeg p.orientation) := by
  obtain ⟨⟨px, py, pz⟩, ⟨w, x, y, z⟩⟩ := p
  simp only at h
  by_cases hn0 : x ^ 2 + y ^ 2 + z ^ 2 = 0
  · have hx : x = 0 := sq_eq_zero_iff.mp
      (le_antisymm (by nlinarith [sq_nonneg y, sq_nonneg z]) (sq_nonneg x))
    have hy : y = 0 := sq_eq_zero_iff.mp
      (le_antisymm (by nlinarith [sq_nonneg x, sq_nonneg z]) (sq_nonneg y))
    have hz : z = 0 := sq_eq_zero_iff.mp
      (le_antisymm (by nlinarith [sq_nonneg x, sq_nonneg y]) (sq_nonneg z))
    subst hx; subst hy; subst hz
    have hw : w = 1 ∨ w = -1 := by
      have h1 : w ^ 2 = 1 := by linarith [h]
      rcases mul_eq_zero.mp (show (w - 1) * (w + 1) = 0 from by linear_combination h1)
        with h3 | h3
      · exact Or.inl (by linarith)
      · exact Or.inr (by linarith)
    rw [Pose2RTDE_zero_vector_part px py pz w, RTDE2Pose_zero_rotation px py pz]
    refine ⟨rfl, ?_⟩
    rcases hw with hw | hw <;> subst hw
    · exact Or.inl rfl
    · right
      simp [quatNeg]
  · have hpos : 0 < x ^ 2 + y ^ 2 + z ^ 2 := lt_of_le_of_ne (by positivity) (Ne.symm hn0)
    have hn : 0 < Real.sqrt (x ^ 2 + y ^ 2 + z ^ 2) := Real.sqrt_pos.mpr hpos
    have hn2 : Real.sqrt (x ^ 2 + y ^ 2 + z ^ 2) ^ 2 = x ^ 2 + y ^ 2 + z ^ 2 :=
      Real.sq_sqrt hpos.le
    have hunit : (x / Real.sqrt (x ^ 2 + y ^ 2 + z ^ 2)) ^ 2 +
        (y / Real.sqrt (x ^ 2 + y ^ 2 + z ^ 2)) ^ 2 +
        (z / Real.sqrt (x ^ 2 + y ^ 2 + z ^ 2)) ^ 2 = 1 := by
      field_simp
    have hAt : ∀ W : ℝ, 0 ≤ W → 0 < atan2 (Real.sqrt (x ^ 2 + y ^ 2 + z ^ 2)) W := by
      intro W hW
      rcases eq_or_lt_of_le hW with hW0 | hWpos
      · rw [atan2, ← hW0, if_neg (lt_irrefl 0), if_neg (lt_irrefl 0), if_pos hn]
        positivity
      · rw [atan2, if_pos hWpos]
        have h1 : (0:ℝ) < Real.sqrt (x ^ 2 + y ^ 2 + z ^ 2) / W := div_pos hn hWpos
        calc (0:ℝ) = Real.arctan 0 := Real.arctan_zero.symm
          _ < Real.arctan (Real.sqrt (x ^ 2 + y ^ 2 + z ^ 2) / W) :=
            Real.arctan_strictMono h1
    rcases lt_or_ge w 0 with hwneg | hwnn
    · have hunitneg : (x / -Real.sqrt (x ^ 2 + y ^ 2 + z ^ 2)) ^ 2 +
          (y / -Real.sqrt (x ^ 2 + y ^ 2 + z ^ 2)) ^ 2 +
          (z / -Real.sqrt (x ^ 2 + y ^ 2 + z ^ 2)) ^ 2 = 1 := by
        rw [div_neg, div_neg, div_neg, neg_sq, neg_sq, neg_sq]
        exact hunit
      have hAA : angleAxisOfQuat ⟨w, x, y, z⟩ =
          (2 * atan2 (Real.sqrt (x ^ 2 + y ^ 2 + z ^ 2)) (-w),
            ⟨x / -Real.sqrt (x ^ 2 + y ^ 2 + z ^ 2),
             y / -Real.sqrt (x ^ 2 + y ^ 2 + z ^ 2),
             z / -Real.sqrt (x ^ 2 + y ^ 2 + z ^ 2)⟩) := by
        simp only [angleAxisOfQuat, norm3]
        rw [if_pos hn.ne', if_pos hwneg, abs_of_neg hwneg]
      have hP : Pose2RTDE ⟨⟨px, py, pz⟩, ⟨w, x, y, z⟩⟩ =
          ⟨px, py, pz,
            x / -Real.sqrt (x ^ 2 + y ^ 2 + z ^ 2) *
              (2 * atan2 (Real.sqrt (x ^ 2 + y ^ 2 + z ^ 2)) (-w)),
            y / -Real.sqrt (x ^ 2 + y ^ 2 + z ^ 2) *
              (2 * atan2 (Real.sqrt (x ^ 2 + y ^ 2 + z ^ 2)) (-w)),
            z / -Real.sqrt (x ^ 2 + y ^ 2 + z ^ 2) *
              (2 * atan2 (Real.sqrt (x ^ 2 + y ^ 2 + z ^ 2)) (-w))⟩ := by
        simp only [Pose2RTDE, hAA]
      have hA : 0 < 2 * atan2 (Real.sqrt (x ^ 2 + y ^ 2 + z ^ 2)) (-w) := by
        have := hAt (-w) (by linarith)
        linarith
      rw [hP, RTDE2Pose_unit_axis px py pz _ _ _ _ hA hunitneg]
      have h2d : 2 * atan2 (Real.sqrt (x ^ 2 + y ^ 2 + z ^ 2)) (-w) / 2 =
          atan2 (Real.sqrt (x ^ 2 + y ^ 2 + z ^ 2)) (-w) := by ring
      have hcs := cos_sin_atan2_of_unit (-w) (Real.sqrt (x ^ 2 + y ^ 2 + z ^ 2)) hn
        (by linarith) (by linear_combination h + hn2)
      refine ⟨rfl, Or.inr ?_⟩
      simp only
      rw [h2d, hcs.1, hcs.2]
      simp only [quatNeg]
      congr 1 <;> field_simp [hn.ne'] <;> ring
    · have hAA : angleAxisOfQuat ⟨w, x, y, z⟩ =
          (2 * atan2 (Real.sqrt (x ^ 2 + y ^ 2 + z ^ 2)) w,
            ⟨x / Real.sqrt (x ^ 2 + y ^ 2 + z ^ 2),
             y / Real.sqrt (x ^ 2 + y ^ 2 + z ^ 2),
             z / Real.sqrt (x ^ 2 + y ^ 2 + z ^ 2)⟩) := by
        simp only [angleAxisOfQuat, norm3]
        rw [if_pos hn.ne', if_neg (not_lt.mpr hwnn), abs_of_nonneg hwnn]
      have hP : Pose2RTDE ⟨⟨px, py, pz⟩, ⟨w, x, y, z⟩⟩ =
          ⟨px, py, pz,
            x / Real.sqrt (x ^ 2 + y ^ 2 + z ^ 2) *
              (2 * atan2 (Real.sqrt (x ^ 2 + y ^ 2 + z ^ 2)) w),
            y / Real.sqrt (x ^ 2 + y ^ 2 + z ^ 2) *
              (2 * atan2 (Real.sqrt (x ^ 2 + y ^ 2 + z ^ 2)) w),
            z / Real.sqrt (x ^ 2 + y ^ 2 + z ^ 2) *
              (2 * atan2 (Real.sqrt (x ^ 2 + y ^ 2 + z ^ 2)) w)⟩ := by
        simp only [Pose2RTDE, hAA]
      have hA : 0 < 2 * atan2 (Real.sqrt (x ^ 2 + y ^ 2 + z ^ 2)) w := by
        have := hAt w hwnn
        linarith
      rw [hP, RTDE2Pose_unit_axis px py pz _ _ _ _ hA hunit]
      have h2d : 2 * atan2 (Real.sqrt (x ^ 2 + y ^ 2 + z ^ 2)) w / 2 =
          atan2 (Real.sqrt (x ^ 2 + y ^ 2 + z ^ 2)) w := by ring
      have hcs := cos_sin_atan2_of_unit w (Real.sqrt (x ^ 2 + y ^ 2 + z ^ 2)) hn
        hwnn (by linear_combination h + hn2)
      refine ⟨rfl, Or.inl ?_⟩
      simp only
      rw [h2d, hcs.1, hcs.2]
      congr 1 <;> field_simp [hn.ne']

/-- Witness for C5 at the identity orientation and position (1,2,3). -/
theorem c5_pose_roundtrip_witness :
    ((⟨⟨1, 2, 3⟩, ⟨1, 0, 0, 0⟩⟩ : Pose).orientation.w ^ 2 +
        (⟨⟨1, 2, 3⟩, ⟨1, 0, 0, 0⟩⟩ : Pose).orientation.x ^ 2 +
        (⟨⟨1, 2, 3⟩, ⟨1, 0, 0, 0⟩⟩ : Pose).orientation.y ^ 2 +
        (⟨⟨1, 2, 3⟩, ⟨1, 0, 0, 0⟩⟩ : Pose).orientation.z ^ 2 = 1) ∧
    ((RTDE2Pose (Pose2RTDE ⟨⟨1, 2, 3⟩, ⟨1, 0, 0, 0⟩⟩)).position =
        (⟨⟨1, 2, 3⟩, ⟨1, 0, 0, 0⟩⟩ : Pose).position ∧
      ((RTDE2Pose (Pose2RTDE ⟨⟨1, 2, 3⟩, ⟨1, 0, 0, 0⟩⟩)).orientation =
          (⟨⟨1, 2, 3⟩, ⟨1, 0, 0, 0⟩⟩ : Pose).orientation ∨
        (RTDE2Pose (Pose2RTDE ⟨⟨1, 2, 3⟩, ⟨1, 0, 0, 0⟩⟩)).orientation =
          quatNeg (⟨⟨1, 2, 3⟩, ⟨1, 0, 0, 0⟩⟩ : Pose).orientation)) :=
  ⟨by norm_num, c5_pose_roundtrip ⟨⟨1, 2, 3⟩, ⟨1, 0, 0, 0⟩⟩ (by norm_num)⟩
